import Mathlib

/-!
Verification of the payment-gateway backend core: a shallow embedding of the
API handlers (`src/backend/src/index.js`) and the background workers
(`src/backend/src/worker.js`) with proofs of the spec's claims about them.

Modelling conventions:
- JavaScript numbers holding monetary amounts are integers in the source; they
  are embedded as `Int` (request fields) and `Nat` (counters, timestamps).
- JavaScript JSON values are embedded as the inductive `Json`; `JSON.stringify`
  is embedded as `Json.serialize` (no whitespace, fields in insertion order,
  standard escaping), which is also what the `axios` default request transform
  and `express`'s `res.json` apply to a plain object.
- The PostgreSQL store is embedded as lists of rows inside `DB`; SQL
  `SELECT ... WHERE` becomes `List.find?` and `UPDATE` becomes `List.map`.
  Plain columns are value-preserving; a JSONB column is not byte-preserving:
  jsonb normalizes the stored value (object keys re-sorted by length then
  bytewise, the last duplicate kept), and `node-postgres` parses the jsonb
  output back into an object in that normalized order, which `res.json`
  then re-serializes. The idempotency `response` column (init.sql line 78
  declares JSONB) is therefore modeled with `jsonbNormalize` at the write.
- `crypto.createHmac("sha256", secret).update(payload).digest("hex")` is
  embedded by an executable HMAC-SHA256 (FIPS 180-4 / RFC 2104) over UTF-8
  bytes, hex output in lowercase, validated below against published vectors.
-/

namespace Gateway

/-! ## JSON values and JSON.stringify -/

/-- JSON values as produced and consumed by the backend. -/
inductive Json where
  | null : Json
  | bool (b : Bool) : Json
  | num (n : Int) : Json
  | str (s : String) : Json
  | arr (elems : List Json) : Json
  | obj (fields : List (String × Json)) : Json
deriving Repr

/-- Four lowercase hex digits, used for JSON control-character escapes. -/
def hexDigit (n : Nat) : Char :=
  if n < 10 then Char.ofNat (48 + n) else Char.ofNat (87 + n)

/-- Hex escape of a code unit, JSON.stringify style (`\u00XX`). -/
def uEscape (n : Nat) : String :=
  "\\u" ++ String.mk [hexDigit (n / 4096 % 16), hexDigit (n / 256 % 16),
                      hexDigit (n / 16 % 16), hexDigit (n % 16)]

/-- Escape of one character inside a JSON string, as JSON.stringify emits it. -/
def escapeJsonChar (c : Char) : String :=
  if c = '"' then "\\\""
  else if c = '\\' then "\\\\"
  else if c = '\n' then "\\n"
  else if c = '\r' then "\\r"
  else if c = '\t' then "\\t"
  else if c.toNat = 8 then "\\b"
  else if c.toNat = 12 then "\\f"
  else if c.toNat < 32 then uEscape c.toNat
  else String.mk [c]

/-- JSON string literal for `s`, as JSON.stringify emits it. -/
def escapeJsonString (s : String) : String :=
  "\"" ++ s.data.foldr (fun c acc => escapeJsonChar c ++ acc) "" ++ "\""

mutual

/-- `JSON.stringify` on a JSON value: no whitespace, object fields in
insertion order. This is also the serialization `express`'s `res.json` and
the `axios` default request transform apply. -/
def Json.serialize : Json → String
  | .null => "null"
  | .bool b => if b then "true" else "false"
  | .num n => toString n
  | .str s => escapeJsonString s
  | .arr xs => "[" ++ Json.serializeElems xs ++ "]"
  | .obj fs => "\x7b" ++ Json.serializeFields fs ++ "\x7d"

/-- Comma-separated serialization of array elements. -/
def Json.serializeElems : List Json → String
  | [] => ""
  | [j] => Json.serialize j
  | j :: rest => Json.serialize j ++ "," ++ Json.serializeElems rest

/-- Comma-separated serialization of object fields. -/
def Json.serializeFields : List (String × Json) → String
  | [] => ""
  | [(k, v)] => escapeJsonString k ++ ":" ++ Json.serialize v
  | (k, v) :: rest =>
      escapeJsonString k ++ ":" ++ Json.serialize v ++ "," ++ Json.serializeFields rest

end

/-! ## Bytes, UTF-8 and hex -/

/-- UTF-8 encoding of one character, as a list of byte values. -/
def utf8Char (c : Char) : List Nat :=
  let n := c.toNat
  if n < 128 then [n]
  else if n < 2048 then [192 + n / 64, 128 + n % 64]
  else if n < 65536 then [224 + n / 4096, 128 + n / 64 % 64, 128 + n % 64]
  else [240 + n / 262144, 128 + n / 4096 % 64, 128 + n / 64 % 64, 128 + n % 64]

/-- UTF-8 bytes of a string: the bytes Node.js hands to `hmac.update`. -/
def strBytes (s : String) : List Nat :=
  s.data.foldr (fun c acc => utf8Char c ++ acc) []

/-- Lowercase hex characters: the alphabet of a Node.js hex digest. -/
def isLowerHexChar (c : Char) : Bool :=
  c.isDigit || ('a' ≤ c && c ≤ 'f')

/-- Lowercase two-digit hex of one byte. -/
def byteHex (b : Nat) : String :=
  String.mk [hexDigit (b / 16), hexDigit (b % 16)]

/-- Lowercase hex of a byte list: Node.js `digest("hex")`. -/
def bytesToHex (bs : List Nat) : String :=
  bs.foldr (fun b acc => byteHex b ++ acc) ""

/-! ## SHA-256 (FIPS 180-4) over byte lists, 32-bit words as `Nat mod 2^32` -/

/-- Word addition modulo `2^32`. -/
def add32 (a b : Nat) : Nat := (a + b) % 4294967296

/-- Bitwise complement on the low 32 bits. -/
def not32 (a : Nat) : Nat := 4294967295 ^^^ a

/-- Right rotation of a 32-bit word by `k`. -/
def rotr32 (x k : Nat) : Nat := ((x >>> k) ||| (x <<< (32 - k))) % 4294967296

/-- SHA-256 `Ch` function. -/
def shaCh (e f g : Nat) : Nat := (e &&& f) ^^^ (not32 e &&& g)

/-- SHA-256 `Maj` function. -/
def shaMaj (a b c : Nat) : Nat := (a &&& b) ^^^ (a &&& c) ^^^ (b &&& c)

/-- SHA-256 big sigma 0. -/
def bigSigma0 (x : Nat) : Nat := rotr32 x 2 ^^^ rotr32 x 13 ^^^ rotr32 x 22

/-- SHA-256 big sigma 1. -/
def bigSigma1 (x : Nat) : Nat := rotr32 x 6 ^^^ rotr32 x 11 ^^^ rotr32 x 25

/-- SHA-256 small sigma 0. -/
def smallSigma0 (x : Nat) : Nat := rotr32 x 7 ^^^ rotr32 x 18 ^^^ (x >>> 3)

/-- SHA-256 small sigma 1. -/
def smallSigma1 (x : Nat) : Nat := rotr32 x 17 ^^^ rotr32 x 19 ^^^ (x >>> 10)

/-- The 64 SHA-256 round constants, written in decimal. -/
def shaK : List Nat :=
  [1116352408, 1899447441, 3049323471, 3921009573, 961987163, 1508970993,
   2453635748, 2870763221, 3624381080, 310598401, 607225278, 1426881987,
   1925078388, 2162078206, 2614888103, 3248222580, 3835390401, 4022224774,
   264347078, 604807628, 770255983, 1249150122, 1555081692, 1996064986,
   2554220882, 2821834349, 2952996808, 3210313671, 3336571891, 3584528711,
   113926993, 338241895, 666307205, 773529912, 1294757372, 1396182291,
   1695183700, 1986661051, 2177026350, 2456956037, 2730485921, 2820302411,
   3259730800, 3345764771, 3516065817, 3600352804, 4094571909, 275423344,
   430227734, 506948616, 659060556, 883997877, 958139571, 1322822218,
   1537002063, 1747873779, 1955562222, 2024104815, 2227730452, 2361852424,
   2428436474, 2756734187, 3204031479, 3329325298]

/-- SHA-256 working registers. -/
structure Regs where
  a : Nat
  b : Nat
  c : Nat
  d : Nat
  e : Nat
  f : Nat
  g : Nat
  h : Nat
deriving Repr, DecidableEq

/-- SHA-256 initial hash value, written in decimal. -/
def shaInit : Regs :=
  ⟨1779033703, 3144134277, 1013904242, 2773480762,
   1359893119, 2600822924, 528734635, 1541459225⟩

/-- One SHA-256 compression round with round constant `k` and schedule word `w`. -/
def shaRound (r : Regs) (k w : Nat) : Regs :=
  let t1 := add32 (add32 (add32 (add32 r.h (bigSigma1 r.e)) (shaCh r.e r.f r.g)) k) w
  let t2 := add32 (bigSigma0 r.a) (shaMaj r.a r.b r.c)
  ⟨add32 t1 t2, r.a, r.b, r.c, add32 r.d t1, r.e, r.f, r.g⟩

/-- The first 16 schedule words of a 64-byte block, big-endian. -/
def blockWords (b : List Nat) : List Nat :=
  (List.range 16).map fun i =>
    b.getD (4 * i) 0 * 16777216 + b.getD (4 * i + 1) 0 * 65536 +
    b.getD (4 * i + 2) 0 * 256 + b.getD (4 * i + 3) 0

/-- Extension of the 16 block words to the 64-word message schedule. -/
def schedule (ws : List Nat) : List Nat :=
  (List.range 48).foldl
    (fun acc _ =>
      let n := acc.length
      acc ++ [add32 (add32 (smallSigma1 (acc.getD (n - 2) 0)) (acc.getD (n - 7) 0))
                    (add32 (smallSigma0 (acc.getD (n - 15) 0)) (acc.getD (n - 16) 0))])
    ws

/-- SHA-256 compression of one 64-byte block into the chaining state. -/
def compressBlock (hs : Regs) (block : List Nat) : Regs :=
  let final := ((schedule (blockWords block)).zip shaK).foldl
    (fun r wk => shaRound r wk.2 wk.1) hs
  ⟨add32 hs.a final.a, add32 hs.b final.b, add32 hs.c final.c, add32 hs.d final.d,
   add32 hs.e final.e, add32 hs.f final.f, add32 hs.g final.g, add32 hs.h final.h⟩

/-- Big-endian bytes of a 32-bit word. -/
def wordBytes (w : Nat) : List Nat :=
  [w / 16777216 % 256, w / 65536 % 256, w / 256 % 256, w % 256]

/-- SHA-256 padding: `0x80`, zeros to 56 mod 64, then the 64-bit bit length. -/
def padMessage (msg : List Nat) : List Nat :=
  let len := msg.length
  let zeros := (119 - len % 64) % 64
  let bitLen := len * 8
  msg ++ [128] ++ List.replicate zeros 0 ++
    [bitLen / 72057594037927936 % 256, bitLen / 281474976710656 % 256,
     bitLen / 1099511627776 % 256, bitLen / 4294967296 % 256,
     bitLen / 16777216 % 256, bitLen / 65536 % 256, bitLen / 256 % 256, bitLen % 256]

/-- SHA-256 digest (32 bytes) of a byte list. -/
def sha256 (msg : List Nat) : List Nat :=
  let padded := padMessage msg
  let blocks := (List.range (padded.length / 64)).map
    fun i => (padded.drop (i * 64)).take 64
  let hs := blocks.foldl compressBlock shaInit
  wordBytes hs.a ++ wordBytes hs.b ++ wordBytes hs.c ++ wordBytes hs.d ++
  wordBytes hs.e ++ wordBytes hs.f ++ wordBytes hs.g ++ wordBytes hs.h

/-- HMAC-SHA256 (RFC 2104) of a message under a key, both byte lists. -/
def hmacSha256 (key msg : List Nat) : List Nat :=
  let k0 := if 64 < key.length then sha256 key else key
  let kPad := k0 ++ List.replicate (64 - k0.length) 0
  let inner := sha256 (kPad.map (fun b => b ^^^ 54) ++ msg)
  sha256 (kPad.map (fun b => b ^^^ 92) ++ inner)

/-- Embedding of `generateSignature` (worker.js lines 33-35):
`crypto.createHmac("sha256", secret).update(payload).digest("hex")`, where
Node.js consumes both strings as UTF-8 and emits lowercase hex. -/
def generateSignature (payload secret : String) : String :=
  bytesToHex (hmacSha256 (strBytes secret) (strBytes payload))

end Gateway

namespace Gateway

/-! ## JavaScript helpers shared by the handlers -/

/-- Truthiness of an optional string: JavaScript treats both a missing value
and the empty string as falsy (`if (idempotencyKey)`, `if (!vpa)`). -/
def jsTruthyStr : Option String → Bool
  | none => false
  | some s => !(s == "")

/-- Truthiness of an optional number: `undefined` and `0` are falsy
(`if (!amount)`). -/
def jsTruthyNum : Option Int → Bool
  | none => false
  | some n => !(n == 0)

/-- Decimal value of a digit run. -/
def digitsToNat (ds : List Char) : Nat :=
  ds.foldl (fun acc c => acc * 10 + (c.toNat - 48)) 0

/-- Embedding of JavaScript `parseInt(s)` (radix 10): skip leading
whitespace, take an optional sign and the longest digit run; `none` is `NaN`. -/
def jsParseInt (s : String) : Option Int :=
  let cs := s.data.dropWhile Char.isWhitespace
  match cs with
  | '-' :: rest =>
      let ds := rest.takeWhile Char.isDigit
      if ds.isEmpty then none else some (-(digitsToNat ds : Int))
  | '+' :: rest =>
      let ds := rest.takeWhile Char.isDigit
      if ds.isEmpty then none else some (digitsToNat ds)
  | _ =>
      let ds := cs.takeWhile Char.isDigit
      if ds.isEmpty then none else some (digitsToNat ds)

/-- Embedding of `parseInt(x) || d` on an optional query parameter: `NaN`
(absent parameter or unparsable string) and `0` are falsy and yield the
default; every other parsed value, including a negative one, is kept. -/
def jsParseIntOr (q : Option String) (d : Int) : Int :=
  match q with
  | none => d
  | some s =>
    match jsParseInt s with
    | none => d
    | some v => if v = 0 then d else v

/-- The `limit` computation shared verbatim by the four listing handlers
(index.js lines 574, 814, 854, 896): `parseInt(req.query.limit) || 10`. -/
def listLimit (q : Option String) : Int := jsParseIntOr q 10

/-- The `offset` computation shared verbatim by the four listing handlers
(index.js lines 575, 815, 855, 897): `parseInt(req.query.offset) || 0`. -/
def listOffset (q : Option String) : Int := jsParseIntOr q 0

/-! ## Rows of the relational store (init.sql) -/

/-- Payment status column values. -/
inductive PaymentStatus where
  | pending
  | success
  | failed
deriving Repr, DecidableEq

/-- Refund status column values. -/
inductive RefundStatus where
  | pending
  | processed
deriving Repr, DecidableEq

/-- Webhook log status column values. -/
inductive WebhookStatus where
  | pending
  | success
  | failed
deriving Repr, DecidableEq

/-- A row of `merchants`. -/
structure Merchant where
  id : String
  name : String
  email : String
  api_key : String
  api_secret : String
  webhook_url : Option String
  webhook_secret : String
deriving Repr, DecidableEq

/-- A row of `orders`. -/
structure Order where
  id : String
  merchant_id : String
  amount : Int
  currency : String
  receipt : Option String
  status : String
  created_at : Nat
deriving Repr, DecidableEq

/-- A row of `payments`. -/
structure Payment where
  id : String
  order_id : String
  merchant_id : String
  amount : Int
  currency : String
  method : String
  vpa : Option String
  card_last4 : Option String
  card_network : Option String
  status : PaymentStatus
  captured : Bool
  error_code : Option String
  error_description : Option String
  created_at : Nat
  updated_at : Nat
deriving Repr, DecidableEq

/-- A row of `refunds`. -/
structure Refund where
  id : String
  payment_id : String
  merchant_id : String
  amount : Int
  reason : Option String
  status : RefundStatus
  created_at : Nat
  processed_at : Option Nat
deriving Repr, DecidableEq

/-- A row of `webhook_logs`. -/
structure WebhookLog where
  id : String
  merchant_id : String
  event : String
  payload : Json
  status : WebhookStatus
  attempts : Nat
  last_attempt_at : Option Nat
  next_retry_at : Option Nat
  response_code : Option Int
  response_body : Option String
  created_at : Nat
deriving Repr

/-- A row of `idempotency_keys`. -/
structure IdemRecord where
  key : String
  merchant_id : String
  response : Json
  created_at : Nat
  expires_at : Nat
deriving Repr

/-- The relational store: one list of rows per table. -/
structure DB where
  merchants : List Merchant
  orders : List Order
  payments : List Payment
  refunds : List Refund
  webhook_logs : List WebhookLog
  idempotency_keys : List IdemRecord
deriving Repr

/-- A job placed on one of the three queues, with its enqueue delay in ms. -/
inductive Job where
  | processPayment (paymentId : String)
  | processRefund (refundId : String)
  | deliverWebhook (webhookLogId : Option String) (merchantId : String)
      (event : String) (payload : Json) (delay : Nat)
deriving Repr

/-! ## SQL lookups used by the handlers and workers -/

/-- `SELECT * FROM merchants WHERE id = $1`. -/
def findMerchant (db : DB) (mid : String) : Option Merchant :=
  db.merchants.find? fun m => m.id == mid

/-- `SELECT * FROM orders WHERE id = $1 AND merchant_id = $2`. -/
def findOrder (db : DB) (oid mid : String) : Option Order :=
  db.orders.find? fun o => o.id == oid && o.merchant_id == mid

/-- `SELECT * FROM payments WHERE id = $1 AND merchant_id = $2`. -/
def findPayment (db : DB) (pid mid : String) : Option Payment :=
  db.payments.find? fun p => p.id == pid && p.merchant_id == mid

/-- `SELECT * FROM payments WHERE id = $1` (the worker join key; the join to
`merchants` on `p.merchant_id = m.id` is resolved separately). -/
def findPaymentById (db : DB) (pid : String) : Option Payment :=
  db.payments.find? fun p => p.id == pid

/-- `SELECT * FROM refunds WHERE id = $1 AND merchant_id = $2`. -/
def findRefund (db : DB) (rid mid : String) : Option Refund :=
  db.refunds.find? fun r => r.id == rid && r.merchant_id == mid

/-- `SELECT * FROM webhook_logs WHERE id = $1 AND merchant_id = $2`. -/
def findWebhookLog (db : DB) (wid mid : String) : Option WebhookLog :=
  db.webhook_logs.find? fun w => w.id == wid && w.merchant_id == mid

/-- `SELECT COALESCE(SUM(amount), 0) FROM refunds WHERE payment_id = $1`. -/
def refundSum (db : DB) (pid : String) : Int :=
  ((db.refunds.filter fun r => r.payment_id == pid).map Refund.amount).sum

/-- `SELECT * FROM idempotency_keys WHERE key = $1 AND merchant_id = $2 AND
expires_at > NOW()` (index.js lines 196-200). -/
def findIdemRecord (db : DB) (key mid : String) (now : Nat) : Option IdemRecord :=
  db.idempotency_keys.find? fun r => r.key == key && r.merchant_id == mid && now < r.expires_at

/-- `DELETE FROM idempotency_keys WHERE key = $1 AND merchant_id = $2`. -/
def deleteIdemRecord (db : DB) (key mid : String) : DB :=
  { db with idempotency_keys :=
      db.idempotency_keys.filter fun r => !(r.key == key && r.merchant_id == mid) }

/-- `UPDATE payments SET ... WHERE id = $1`: applies `f` to every matching row. -/
def updatePaymentRow (db : DB) (pid : String) (f : Payment → Payment) : DB :=
  { db with payments := db.payments.map fun p => if p.id == pid then f p else p }

/-- `UPDATE webhook_logs SET ... WHERE id = $1`: applies `f` to every matching row. -/
def updateWebhookLogRow (db : DB) (wid : String) (f : WebhookLog → WebhookLog) : DB :=
  { db with webhook_logs := db.webhook_logs.map fun w => if w.id == wid then f w else w }

/-! ## HTTP responses -/

/-- An HTTP response: status code plus JSON body. -/
structure ApiResponse where
  status : Nat
  body : Json
deriving Repr

/-- The uniform error envelope
`res.status(s).json({ error: { code, description } })`. -/
def errorResponse (status : Nat) (code desc : String) : ApiResponse :=
  ⟨status, .obj [("error", .obj [("code", .str code), ("description", .str desc)])]⟩

/-- Result of running a handler: the response, the store afterwards, and the
jobs enqueued (in order). -/
structure HandlerOut where
  resp : ApiResponse
  db : DB
  jobs : List Job
deriving Repr

end Gateway

namespace Gateway

/-! ## API handlers (index.js)

Each handler is embedded as a pure function from the store and the request
to a `HandlerOut`. Early `return res.status(...).json(...)` becomes nested
branching. Row insertion conses onto the table list; every modeled query is
insensitive to row order because primary keys are unique. Timestamps are
embedded as `Nat` milliseconds and rendered as JSON numbers. -/

/-- Rendering of a payment status column into the response strings. -/
def PaymentStatus.asString : PaymentStatus → String
  | .pending => "pending"
  | .success => "success"
  | .failed => "failed"

/-- Rendering of a refund status column into the response strings. -/
def RefundStatus.asString : RefundStatus → String
  | .pending => "pending"
  | .processed => "processed"

/-- Rendering of a webhook log status column into the response strings. -/
def WebhookStatus.asString : WebhookStatus → String
  | .pending => "pending"
  | .success => "success"
  | .failed => "failed"

/-- A nullable text column rendered into JSON (`null` when NULL). -/
def optStrJson : Option String → Json
  | none => .null
  | some s => .str s

/-- GET `/api/v1/orders/:orderId` (index.js lines 153-187). -/
def getOrderHandler (db : DB) (mid oid : String) : ApiResponse :=
  match findOrder db oid mid with
  | none => errorResponse 404 "NOT_FOUND" "Order not found"
  | some o =>
      ⟨200, .obj [("id", .str o.id), ("amount", .num o.amount),
                  ("currency", .str o.currency), ("receipt", optStrJson o.receipt),
                  ("status", .str o.status), ("created_at", .num o.created_at)]⟩

/-- GET `/api/v1/payments/:paymentId` (index.js lines 328-370). The
`...(payment.vpa && { vpa })` spreads keep a key only for a truthy column. -/
def getPaymentHandler (db : DB) (mid pid : String) : ApiResponse :=
  match findPayment db pid mid with
  | none => errorResponse 404 "NOT_FOUND" "Payment not found"
  | some p =>
      ⟨200, .obj
        ([("id", .str p.id), ("order_id", .str p.order_id), ("amount", .num p.amount),
          ("currency", .str p.currency), ("method", .str p.method)] ++
         (if jsTruthyStr p.vpa then [("vpa", .str (p.vpa.getD ""))] else []) ++
         (if jsTruthyStr p.card_last4 then [("card_last4", .str (p.card_last4.getD ""))] else []) ++
         (if jsTruthyStr p.card_network then [("card_network", .str (p.card_network.getD ""))] else []) ++
         [("status", .str p.status.asString), ("captured", .bool p.captured)] ++
         (if jsTruthyStr p.error_code then [("error_code", .str (p.error_code.getD ""))] else []) ++
         (if jsTruthyStr p.error_description then [("error_description", .str (p.error_description.getD ""))] else []) ++
         [("created_at", .num p.created_at), ("updated_at", .num p.updated_at)])⟩

/-- GET `/api/v1/refunds/:refundId` (index.js lines 534-569). -/
def getRefundHandler (db : DB) (mid rid : String) : ApiResponse :=
  match findRefund db rid mid with
  | none => errorResponse 404 "NOT_FOUND" "Refund not found"
  | some r =>
      ⟨200, .obj
        ([("id", .str r.id), ("payment_id", .str r.payment_id), ("amount", .num r.amount),
          ("reason", optStrJson r.reason), ("status", .str r.status.asString),
          ("created_at", .num r.created_at)] ++
         (match r.processed_at with
          | some t => [("processed_at", Json.num t)]
          | none => []))⟩

/-- POST `/api/v1/payments/:paymentId/capture` (index.js lines 373-437). The
request-body `amount` is read but never used. -/
def capturePaymentHandler (db : DB) (mid pid : String) (now : Nat) : HandlerOut :=
  match findPayment db pid mid with
  | none => ⟨errorResponse 404 "NOT_FOUND" "Payment not found", db, []⟩
  | some p =>
      if !(p.status == .success) then
        ⟨errorResponse 400 "BAD_REQUEST_ERROR" "Payment not in capturable state", db, []⟩
      else if p.captured then
        ⟨errorResponse 400 "BAD_REQUEST_ERROR" "Payment already captured", db, []⟩
      else
        ⟨⟨200, .obj [("id", .str p.id), ("order_id", .str p.order_id),
                     ("amount", .num p.amount), ("currency", .str p.currency),
                     ("method", .str p.method), ("status", .str p.status.asString),
                     ("captured", .bool true), ("created_at", .num p.created_at),
                     ("updated_at", .num now)]⟩,
         updatePaymentRow db pid (fun q => { q with captured := true, updated_at := now }),
         []⟩

/-- POST `/api/v1/webhooks/:webhookId/retry` (index.js lines 616-663): reset
`attempts = 0`, `status = 'pending'`, `next_retry_at = NOW()` and enqueue a
delivery job (no delay) carrying the payload read from the stored log. -/
def retryWebhookHandler (db : DB) (mid wid : String) (now : Nat) : HandlerOut :=
  match findWebhookLog db wid mid with
  | none => ⟨errorResponse 404 "NOT_FOUND" "Webhook log not found", db, []⟩
  | some w =>
      ⟨⟨200, .obj [("id", .str w.id), ("status", .str "pending"),
                   ("message", .str "Webhook retry scheduled")]⟩,
       updateWebhookLogRow db wid
         (fun l => { l with attempts := 0, status := .pending, next_retry_at := some now }),
       [Job.deliverWebhook (some w.id) mid w.event w.payload 0]⟩

/-! ## POST `/api/v1/payments` (index.js lines 190-325) -/

/-- Request body of create-payment; `none` is an absent field. -/
structure PaymentRequest where
  order_id : Option String
  method : Option String
  vpa : Option String
  card_number : Option String
  card_expiry : Option String
  card_cvv : Option String
deriving Repr, DecidableEq

/-- `card_number.slice(-4)`: the last four characters. -/
def cardLast4Of (cn : String) : String :=
  String.mk (cn.data.drop (cn.data.length - 4))

/-- Network inference (index.js lines 277-278): leading `4` is visa, leading
`5` is mastercard, anything else unknown. -/
def cardNetworkOf (cn : String) : String :=
  if cn.startsWith "4" then "visa"
  else if cn.startsWith "5" then "mastercard"
  else "unknown"

/-- Lexicographic comparison of byte lists (memcmp with the shorter-list
tie already settled by the caller). -/
def bytesLt : List Nat → List Nat → Bool
  | [], [] => false
  | [], _ :: _ => true
  | _ :: _, [] => false
  | a :: as, b :: bs => if a < b then true else if b < a then false else bytesLt as bs

/-- Ordering of object keys inside a stored jsonb value: shorter keys
first, equal lengths compared bytewise on the UTF-8 encoding (PostgreSQL
jsonb key order). -/
def jsonbKeyLt (a b : String) : Bool :=
  (strBytes a).length < (strBytes b).length ||
    ((strBytes a).length == (strBytes b).length && bytesLt (strBytes a) (strBytes b))

/-- Duplicate object keys in a stored jsonb value keep only the last
occurrence. -/
def dedupKeysKeepLast (fs : List (String × Json)) : List (String × Json) :=
  fs.foldl (fun acc kv => acc.filter (fun kv2 => !(kv2.1 == kv.1)) ++ [kv]) []

/-- Insertion into a key-sorted field list. -/
def insertByKey (kv : String × Json) : List (String × Json) → List (String × Json)
  | [] => [kv]
  | kv2 :: rest =>
      if jsonbKeyLt kv.1 kv2.1 then kv :: kv2 :: rest else kv2 :: insertByKey kv rest

/-- Insertion sort of object fields into the jsonb key order. -/
def sortByKey : List (String × Json) → List (String × Json)
  | [] => []
  | kv :: rest => insertByKey kv (sortByKey rest)

mutual

/-- Modelled from PostgreSQL jsonb semantics: the normalization a JSONB
column applies to a stored value — object keys re-sorted by length then
bytewise with the last duplicate kept, recursively; arrays and scalars
unchanged. Reading the column back yields exactly this normalized value. -/
def jsonbNormalize : Json → Json
  | .null => .null
  | .bool b => .bool b
  | .num n => .num n
  | .str s => .str s
  | .arr xs => .arr (jsonbNormalizeList xs)
  | .obj fs => .obj (sortByKey (dedupKeysKeepLast (jsonbNormalizeFields fs)))

/-- Normalization of every element of an array. -/
def jsonbNormalizeList : List Json → List Json
  | [] => []
  | j :: rest => jsonbNormalize j :: jsonbNormalizeList rest

/-- Normalization of every field value of an object. -/
def jsonbNormalizeFields : List (String × Json) → List (String × Json)
  | [] => []
  | (k, v) :: rest => (k, jsonbNormalize v) :: jsonbNormalizeFields rest

end

/-- The idempotency write (index.js lines 306-313): performed only for a
truthy key, caching the response with a 24 h expiry. The `response` column
is JSONB (init.sql line 78), so what the store retains — and what a later
read serves back — is the jsonb-normalized value, not the ordered response
object. -/
def storeIdemRecord (db : DB) (idemKey : Option String) (mid : String)
    (resp : Json) (now : Nat) : DB :=
  if jsTruthyStr idemKey then
    { db with idempotency_keys :=
        ⟨idemKey.getD "", mid, jsonbNormalize resp, now, now + 86400000⟩ :: db.idempotency_keys }
  else db

/-- The create-payment flow after the idempotency read (index.js lines
213-315): validation, payment insert, job enqueue, idempotency write. -/
def createPaymentMain (db : DB) (mid : String) (idemKey : Option String)
    (body : PaymentRequest) (now : Nat) (pid : String) : HandlerOut :=
  if !jsTruthyStr body.order_id || !jsTruthyStr body.method then
    ⟨errorResponse 400 "BAD_REQUEST_ERROR" "Missing required fields", db, []⟩
  else
    match findOrder db (body.order_id.getD "") mid with
    | none => ⟨errorResponse 400 "BAD_REQUEST_ERROR" "Order not found", db, []⟩
    | some order =>
      let method := body.method.getD ""
      if !(method == "upi" || method == "card") then
        ⟨errorResponse 400 "BAD_REQUEST_ERROR" "Invalid payment method", db, []⟩
      else if method == "upi" && !jsTruthyStr body.vpa then
        ⟨errorResponse 400 "BAD_REQUEST_ERROR" "VPA is required for UPI payments", db, []⟩
      else if method == "card" && (!jsTruthyStr body.card_number ||
          !jsTruthyStr body.card_expiry || !jsTruthyStr body.card_cvv) then
        ⟨errorResponse 400 "BAD_REQUEST_ERROR" "Card details are required for card payments", db, []⟩
      else
        let cardLast4 := if method == "card" then some (cardLast4Of (body.card_number.getD "")) else none
        let cardNetwork := if method == "card" then some (cardNetworkOf (body.card_number.getD "")) else none
        let payment : Payment :=
          ⟨pid, body.order_id.getD "", mid, order.amount, order.currency, method,
           body.vpa, cardLast4, cardNetwork, .pending, false, none, none, now, now⟩
        let resp : Json := .obj
          ([("id", .str pid), ("order_id", .str (body.order_id.getD "")),
            ("amount", .num order.amount), ("currency", .str order.currency),
            ("method", .str method)] ++
           (if method == "upi" then [("vpa", Json.str (body.vpa.getD ""))] else []) ++
           (if method == "card" then
              [("card_last4", Json.str (cardLast4Of (body.card_number.getD ""))),
               ("card_network", Json.str (cardNetworkOf (body.card_number.getD "")))]
            else []) ++
           [("status", .str "pending"), ("created_at", .num now)])
        let db1 := { db with payments := payment :: db.payments }
        let db2 := storeIdemRecord db1 idemKey mid resp now
        ⟨⟨201, resp⟩, db2, [Job.processPayment pid]⟩

/-- POST `/api/v1/payments` (index.js lines 190-325). A truthy
`Idempotency-Key` is looked up first; a fresh (unexpired) record returns the
cached response verbatim as a `201` before any validation; otherwise any
expired record is deleted and the main flow runs. -/
def createPaymentHandler (db : DB) (mid : String) (idemKey : Option String)
    (body : PaymentRequest) (now : Nat) (pid : String) : HandlerOut :=
  if jsTruthyStr idemKey then
    match findIdemRecord db (idemKey.getD "") mid now with
    | some cached => ⟨⟨201, cached.response⟩, db, []⟩
    | none =>
        createPaymentMain (deleteIdemRecord db (idemKey.getD "") mid) mid idemKey body now pid
  else
    createPaymentMain db mid idemKey body now pid

/-! ## POST `/api/v1/payments/:paymentId/refunds` (index.js lines 440-531) -/

/-- Create-refund: ownership lookup, refundable check, available-amount check
against the sum of all recorded refunds, then insert and enqueue. -/
def createRefundHandler (db : DB) (mid pid : String) (amount : Option Int)
    (reason : Option String) (now : Nat) (rid : String) : HandlerOut :=
  match findPayment db pid mid with
  | none => ⟨errorResponse 404 "NOT_FOUND" "Payment not found", db, []⟩
  | some payment =>
      if !(payment.status == .success) then
        ⟨errorResponse 400 "BAD_REQUEST_ERROR" "Only successful payments can be refunded", db, []⟩
      else
        let totalRefunded := refundSum db pid
        let availableAmount := payment.amount - totalRefunded
        if !jsTruthyNum amount || amount.getD 0 ≤ 0 then
          ⟨errorResponse 400 "BAD_REQUEST_ERROR" "Invalid refund amount", db, []⟩
        else if availableAmount < amount.getD 0 then
          ⟨errorResponse 400 "BAD_REQUEST_ERROR" "Refund amount exceeds available amount", db, []⟩
        else
          let refund : Refund := ⟨rid, pid, mid, amount.getD 0, reason, .pending, now, none⟩
          ⟨⟨201, .obj
              ([("id", .str rid), ("payment_id", .str pid), ("amount", .num (amount.getD 0))] ++
               (match reason with
                | some r => [("reason", Json.str r)]
                | none => []) ++
               [("status", .str "pending"), ("created_at", .num now)])⟩,
           { db with refunds := refund :: db.refunds },
           [Job.processRefund rid]⟩

end Gateway

namespace Gateway

/-! ## Workers (worker.js)

The workers are embedded as pure step functions. Runtime inputs that the
source draws from the environment or from chance are passed as parameters:
`isSuccess` is the resolved acquirer decision (forced by
`TEST_PAYMENT_SUCCESS` in test mode, a Bernoulli draw otherwise, worker.js
lines 61-67), `testIntervals` is `WEBHOOK_RETRY_INTERVALS_TEST`, and the HTTP
outcome of a delivery attempt is an `HttpOutcome` argument. -/

/-- `PRODUCTION_RETRY_INTERVALS` (worker.js line 25). -/
def PRODUCTION_RETRY_INTERVALS : List Nat := [0, 60000, 300000, 1800000, 7200000]

/-- `TEST_RETRY_INTERVALS` (worker.js line 26). -/
def TEST_RETRY_INTERVALS : List Nat := [0, 5000, 10000, 15000, 20000]

/-- `getRetryIntervals` (worker.js lines 28-30). -/
def getRetryIntervals (testIntervals : Bool) : List Nat :=
  if testIntervals then TEST_RETRY_INTERVALS else PRODUCTION_RETRY_INTERVALS

/-- JavaScript `l[i] || l[l.length - 1]`: an out-of-range index yields
`undefined` and the value `0` is falsy, so both fall back to the last
element; both are modeled by the `getD` default `0`. -/
def jsIndexOr (l : List Nat) (i : Nat) : Nat :=
  let v := l.getD i 0
  if v = 0 then l.getD (l.length - 1) 0 else v

/-- The webhook job payload built at fan-out (worker.js lines 293-298):
`{event, timestamp: unix seconds, data}`. -/
def webhookPayload (event : String) (nowMs : Nat) (data : Json) : Json :=
  .obj [("event", .str event), ("timestamp", .num (nowMs / 1000)), ("data", data)]

/-- `enqueueWebhook` (worker.js lines 293-305): a delivery job with no log id
and no delay. -/
def enqueueWebhookJob (mid event : String) (nowMs : Nat) (data : Json) : Job :=
  .deliverWebhook none mid event (webhookPayload event nowMs data) 0

/-- The `payment.success` webhook `data` (worker.js lines 80-91). -/
def paymentSuccessData (p : Payment) : Json :=
  .obj [("payment", .obj
    ([("id", .str p.id), ("order_id", .str p.order_id), ("amount", .num p.amount),
      ("currency", .str p.currency), ("method", .str p.method)] ++
     (if jsTruthyStr p.vpa then [("vpa", Json.str (p.vpa.getD ""))] else []) ++
     [("status", .str "success"), ("created_at", .num p.created_at)]))]

/-- The `payment.failed` webhook `data` (worker.js lines 102-114). -/
def paymentFailedData (p : Payment) : Json :=
  .obj [("payment", .obj
    [("id", .str p.id), ("order_id", .str p.order_id), ("amount", .num p.amount),
     ("currency", .str p.currency), ("method", .str p.method),
     ("status", .str "failed"), ("error_code", .str "PAYMENT_FAILED"),
     ("error_description", .str "Payment processing failed"),
     ("created_at", .num p.created_at)])]

/-- The payment worker join (worker.js lines 44-47): the payment row inner
joined with its merchant. -/
def findPaymentJoin (db : DB) (pid : String) : Option (Payment × Merchant) :=
  match findPaymentById db pid with
  | none => none
  | some p =>
      match findMerchant db p.merchant_id with
      | none => none
      | some m => some (p, m)

/-- The payment worker (worker.js lines 38-121): load the payment, decide,
update the row — the `UPDATE ... WHERE id = $2` carries no status guard —
and fan out a webhook when the merchant has a webhook URL. A missing join
row returns early with nothing touched and nothing enqueued. -/
def runPaymentWorker (db : DB) (pid : String) (isSuccess : Bool) (nowMs : Nat) :
    DB × List Job :=
  match findPaymentJoin db pid with
  | none => (db, [])
  | some (payment, merchant) =>
      if isSuccess then
        (updatePaymentRow db pid (fun p => { p with status := .success, updated_at := nowMs }),
         if jsTruthyStr merchant.webhook_url then
           [enqueueWebhookJob payment.merchant_id "payment.success" nowMs (paymentSuccessData payment)]
         else [])
      else
        (updatePaymentRow db pid (fun p =>
           { p with status := .failed, error_code := some "PAYMENT_FAILED",
                    error_description := some "Payment processing failed", updated_at := nowMs }),
         if jsTruthyStr merchant.webhook_url then
           [enqueueWebhookJob payment.merchant_id "payment.failed" nowMs (paymentFailedData payment)]
         else [])

/-! ## Webhook deliverer (worker.js lines 186-290) -/

/-- The data a `deliver-webhook` job carries. -/
structure WebhookJobData where
  webhookLogId : Option String
  merchantId : String
  event : String
  payload : Json
deriving Repr

/-- Outcome of the `axios.post`: `ok` is a 2xx resolution, `err` is the
rejection (non-2xx with its status, or a transport error with no status). -/
inductive HttpOutcome where
  | ok (code : Int) (data : Json)
  | err (code : Option Int) (message : String)
deriving Repr

/-- `s.substring(0, n)`: the first `n` characters. -/
def strTruncate (s : String) (n : Nat) : String :=
  String.mk (s.data.take n)

/-- The success update (worker.js lines 239-245): `status='success'`,
`attempts = attempts + 1`, response code and the response body serialized
and truncated with `.substring(0, 1000)`. -/
def webhookSuccessUpdate (log : WebhookLog) (now : Nat) (respStatus : Int)
    (respData : Json) : WebhookLog :=
  { log with status := .success, attempts := log.attempts + 1,
             last_attempt_at := some now, response_code := some respStatus,
             response_body := some (strTruncate (Json.serialize respData) 1000) }

/-- The failure update (worker.js lines 248-284): increment the attempt
count; at five or more mark the log failed and enqueue nothing, otherwise
set it pending with `next_retry_at = now + intervals[attempts]` and enqueue
one delivery job with that delay, carrying the payload read from the job.
The error message is stored as `response_body` with no truncation. -/
def webhookFailUpdate (testIntervals : Bool) (job : WebhookJobData)
    (log : WebhookLog) (now : Nat) (errCode : Option Int) (errMessage : String) :
    WebhookLog × List Job :=
  let attempts := log.attempts + 1
  let responseCode : Int := match errCode with | some c => c | none => 0
  if 5 ≤ attempts then
    ({ log with status := .failed, attempts := attempts, last_attempt_at := some now,
                response_code := some responseCode, response_body := some errMessage },
     [])
  else
    let intervals := getRetryIntervals testIntervals
    let nextRetryDelay := jsIndexOr intervals attempts
    ({ log with status := .pending, attempts := attempts, last_attempt_at := some now,
                next_retry_at := some (now + nextRetryDelay),
                response_code := some responseCode, response_body := some errMessage },
     [Job.deliverWebhook (some log.id) job.merchantId job.event job.payload nextRetryDelay])

/-- The outbound request of one delivery attempt (worker.js lines 226-237):
the signature is HMAC over `JSON.stringify(payload)` and the body is the
`axios` default serialization of the same `payload` object, which is again
`JSON.stringify` — both embedded as `Json.serialize`. -/
structure HttpRequest where
  url : String
  contentType : String
  signatureHeader : String
  body : String
  timeoutMs : Nat
deriving Repr

/-- Construction of the delivery request (worker.js lines 226-237). -/
def buildWebhookRequest (merchant : Merchant) (payload : Json) : HttpRequest :=
  let payloadString := Json.serialize payload
  { url := merchant.webhook_url.getD "",
    contentType := "application/json",
    signatureHeader := generateSignature payloadString merchant.webhook_secret,
    body := Json.serialize payload,
    timeoutMs := 5000 }

/-- The webhook worker (worker.js lines 186-290). `none` models the worker
throwing (a job naming a missing log row crashes on `webhookLog.attempts`);
otherwise the result is the store, the re-enqueued jobs, and the request
that was sent (if any). A missing merchant or a falsy `webhook_url` is a
no-op that never touches the log. -/
def runWebhookWorker (db : DB) (job : WebhookJobData) (newLogId : String)
    (testIntervals : Bool) (now : Nat) (outcome : HttpOutcome) :
    Option (DB × List Job × Option HttpRequest) :=
  match findMerchant db job.merchantId with
  | none => some (db, [], none)
  | some merchant =>
      if !jsTruthyStr merchant.webhook_url then some (db, [], none)
      else
        let loaded : Option (WebhookLog × DB) :=
          match job.webhookLogId with
          | some lid =>
              match db.webhook_logs.find? (fun w => w.id == lid) with
              | some w => some (w, db)
              | none => none
          | none =>
              let w : WebhookLog :=
                ⟨newLogId, job.merchantId, job.event, job.payload, .pending, 0,
                 none, none, none, none, now⟩
              some (w, { db with webhook_logs := w :: db.webhook_logs })
        match loaded with
        | none => none
        | some (log, db1) =>
            let req := buildWebhookRequest merchant job.payload
            match outcome with
            | .ok code data =>
                some (updateWebhookLogRow db1 log.id
                        (fun w => webhookSuccessUpdate w now code data), [], some req)
            | .err c msg =>
                let r := webhookFailUpdate testIntervals job log now c msg
                some (updateWebhookLogRow db1 log.id (fun _ => r.1), r.2, some req)

/-! ## Per-log delivery state machine

The spec guarantees serial delivery per log: a new delivery job is enqueued
only after the prior attempt's update commits, and at most one job is
outstanding per log. The reachable states of one log under that discipline
are captured by a step relation on the pair (log row, a delivery job is
outstanding), with every transition produced by the worker update functions
above or by the manual-retry handler reset. -/

/-- One serial transition of a webhook log. -/
inductive WebhookStep (testIntervals : Bool) :
    WebhookLog × Bool → WebhookLog × Bool → Prop where
  /-- The outstanding job delivers with a 2xx. -/
  | deliverOk (log : WebhookLog) (now : Nat) (code : Int) (data : Json) :
      WebhookStep testIntervals (log, true) (webhookSuccessUpdate log now code data, false)
  /-- The outstanding job fails; the worker update decides the new status and
  whether a retry job is enqueued. -/
  | deliverErr (log : WebhookLog) (job : WebhookJobData) (now : Nat)
      (code : Option Int) (msg : String) :
      WebhookStep testIntervals (log, true)
        ((webhookFailUpdate testIntervals job log now code msg).1,
         !(webhookFailUpdate testIntervals job log now code msg).2.isEmpty)
  /-- The outstanding job is consumed without touching the log (merchant
  gone or no webhook URL). -/
  | deliverSkip (log : WebhookLog) :
      WebhookStep testIntervals (log, true) (log, false)
  /-- The manual-retry endpoint resets the log and enqueues a job. -/
  | manualRetry (log : WebhookLog) (b : Bool) (now : Nat) :
      WebhookStep testIntervals (log, b)
        ({ log with attempts := 0, status := .pending, next_retry_at := some now }, true)

/-- A freshly created log (worker.js lines 218-224) with its first delivery
in flight. -/
def webhookLogInit (newLogId mid event : String) (payload : Json) (now : Nat) :
    WebhookLog × Bool :=
  (⟨newLogId, mid, event, payload, .pending, 0, none, none, none, none, now⟩, true)

end Gateway

namespace Gateway

/-! ## Concrete fixtures used to evaluate the handlers and workers -/

/-- Fixture: a merchant with a configured webhook URL. -/
def merchantW : Merchant :=
  ⟨"m1", "Test Merchant", "test@example.com", "key_test_abc123",
   "secret_test_xyz789", some "http://localhost:4000/hook", "whsec_test_abc123"⟩

/-- Fixture: a second merchant. -/
def merchantB : Merchant :=
  ⟨"m2", "Other Merchant", "other@example.com", "key_other", "secret_other",
   none, "whsec_other"⟩

/-- Fixture: an order owned by `m1`. -/
def orderW : Order := ⟨"order_1", "m1", 50000, "INR", none, "created", 0⟩

/-- Fixture: an order owned by `m2`. -/
def orderB : Order := ⟨"order_2", "m2", 7000, "INR", none, "created", 0⟩

/-- Fixture: a successful UPI payment of 100 owned by `m1`. -/
def paymentS : Payment :=
  ⟨"pay_1", "order_1", "m1", 100, "INR", "upi", some "a@bank", none, none,
   .success, false, none, none, 0, 0⟩

/-- Fixture: a recorded refund of 40 against `pay_1`. -/
def refundW : Refund := ⟨"rfnd_1", "pay_1", "m1", 40, none, .processed, 0, some 1⟩

/-- Fixture store with two merchants, two orders, one successful payment and
one prior refund, and no idempotency records. -/
def dbW : DB := ⟨[merchantW, merchantB], [orderW, orderB], [paymentS], [refundW], [], []⟩

/-- Fixture: a delivery job without a log id. -/
def jobW : WebhookJobData := ⟨none, "m1", "payment.success", Json.null⟩

/-- Fixture: a fresh webhook log with no attempts. -/
def logW : WebhookLog :=
  ⟨"w1", "m1", "payment.success", Json.null, .pending, 0, none, none, none, none, 0⟩

/-- Fixture: a UPI create-payment body for `order_1`. -/
def reqU1 : PaymentRequest := ⟨some "order_1", some "upi", some "a@bank", none, none, none⟩

/-- Fixture: the same body with a different vpa. -/
def reqU2 : PaymentRequest := ⟨some "order_1", some "upi", some "b@bank", none, none, none⟩

/-- Fixture: a UPI create-payment body naming the foreign order `order_2`. -/
def reqForeign : PaymentRequest := ⟨some "order_2", some "upi", some "x@y", none, none, none⟩

/-- Fixture: a 1001-character string. -/
def longMsg : String := String.mk (List.replicate 1001 'a')

/-- Strengthened inductive invariant of the serial delivery state machine:
the attempt counter is bounded by 5, a log with an outstanding job has room
for another attempt, and a failed log has exactly 5 attempts and no job. -/
def webhookInv : WebhookLog × Bool → Prop
  | (log, hasJob) =>
      log.attempts ≤ 5 ∧ (hasJob = true → log.attempts ≤ 4) ∧
      (log.status = .failed → log.attempts = 5 ∧ hasJob = false)

end Gateway

namespace Gateway

/-! ## Helper lemmas -/

/-- A row update keyed on `id` commutes with the `id` lookup when the update
preserves `id`. -/
theorem findPaymentById_updateRow (db : DB) (pid : String) (f : Payment → Payment)
    (hid : ∀ p, (f p).id = p.id) :
    findPaymentById (updatePaymentRow db pid f) pid =
      (findPaymentById db pid).map fun p => if p.id == pid then f p else p := by
  unfold findPaymentById updatePaymentRow
  rw [List.find?_map]
  have hpred : ((fun p : Payment => p.id == pid) ∘ fun p => if (p.id == pid) = true then f p else p)
      = fun p : Payment => p.id == pid := by
    funext q
    by_cases hq : (q.id == pid) = true
    · simp [Function.comp, hq, hid]
    · simp [Function.comp, hq]
  rw [hpred]

/-- The webhook-fail update preserves the stored error message verbatim. -/
theorem webhookFailUpdate_body (t : Bool) (job : WebhookJobData) (log : WebhookLog)
    (now : Nat) (code : Option Int) (msg : String) :
    (webhookFailUpdate t job log now code msg).1.response_body = some msg := by
  simp only [webhookFailUpdate]
  split <;> rfl

/-! ## C10 -/

/-- C10: a payment job whose `paymentId` matches no payment row completes as
a no-op — the worker returns without an error, leaves every row unchanged
and enqueues nothing, so the job is consumed rather than retried. -/
theorem paymentWorker_missing_payment_is_noop (db : DB) (pid : String)
    (isSuccess : Bool) (now : Nat) (h : findPaymentById db pid = none) :
    runPaymentWorker db pid isSuccess now = (db, []) := by
  unfold runPaymentWorker findPaymentJoin
  rw [h]

/-- Witness for C10 at a payment id absent from the fixture store. -/
theorem paymentWorker_missing_payment_is_noop_witness :
    findPaymentById dbW "pay_absent" = none ∧
    runPaymentWorker dbW "pay_absent" false 5 = (dbW, []) :=
  ⟨rfl, paymentWorker_missing_payment_is_noop dbW "pay_absent" false 5 rfl⟩

/-! ## C1 -/

/-- C1 counterexample: the fixture payment `pay_1` is already in the terminal
state `success`, yet re-running the payment worker with a failure decision
overwrites it to `failed` — the step-4 update is not idempotent and a
terminal status is overwritten. -/
theorem paymentWorker_overwrites_terminal_status :
    (findPaymentById dbW "pay_1").map Payment.status = some .success ∧
    (findPaymentById (runPaymentWorker dbW "pay_1" false 5).1 "pay_1").map Payment.status =
      some .failed := by
  exact ⟨rfl, rfl⟩

/-- C1 amended: the worker's terminal update carries no status guard, so
whenever the payment row (joined with its merchant) exists the run sets the
status to the freshly decided outcome regardless of the prior status. A
re-run is idempotent only when the new decision equals the stored outcome;
a re-run whose decision differs overwrites the terminal status. -/
theorem paymentWorker_status_is_decision (db : DB) (pid : String)
    (isSuccess : Bool) (now : Nat) (p : Payment) (m : Merchant)
    (hp : findPaymentById db pid = some p)
    (hm : findMerchant db p.merchant_id = some m) :
    (findPaymentById (runPaymentWorker db pid isSuccess now).1 pid).map Payment.status =
      some (if isSuccess then PaymentStatus.success else PaymentStatus.failed) := by
  have hp' : List.find? (fun q => q.id == pid) db.payments = some p := hp
  have hid : (p.id == pid) = true := by simpa using List.find?_some hp'
  have hid' : p.id = pid := by simpa using hid
  unfold runPaymentWorker findPaymentJoin
  simp only [hp, hm]
  cases isSuccess
  · rw [if_neg (by simp : ¬(false = true))]
    dsimp only
    rw [findPaymentById_updateRow db pid
          (fun p => { p with status := PaymentStatus.failed,
                             error_code := some "PAYMENT_FAILED",
                             error_description := some "Payment processing failed",
                             updated_at := now })
          (fun q => rfl), hp]
    simp [hid']
  · rw [if_pos rfl]
    dsimp only
    rw [findPaymentById_updateRow db pid
          (fun p => { p with status := PaymentStatus.success, updated_at := now })
          (fun q => rfl), hp]
    simp [hid']

/-- Witness for C1 at the fixture store: a found join row and a success
decision yield the success status. -/
theorem paymentWorker_status_is_decision_witness :
    findPaymentById dbW "pay_1" = some paymentS ∧
    findMerchant dbW paymentS.merchant_id = some merchantW ∧
    (findPaymentById (runPaymentWorker dbW "pay_1" true 5).1 "pay_1").map Payment.status =
      some PaymentStatus.success :=
  ⟨rfl, rfl, paymentWorker_status_is_decision dbW "pay_1" true 5 paymentS merchantW rfl rfl⟩

end Gateway

namespace Gateway

/-! ## C6 -/

/-- C6: when a delivery attempt fails with the incremented attempt count
below 5, the deliverer sets the log pending with `next_retry_at = now +
intervals[attempts]` and re-enqueues exactly one delivery job with that
delay, where `intervals` is `[0, 60000, 300000, 1800000, 7200000]` ms in
production and `[0, 5000, 10000, 15000, 20000]` ms in test mode; the entry
at zero-based index `attempts` is the delay for the attempt about to be
tried (attempt `attempts + 1` in one-based counting). -/
theorem webhook_retry_backoff (testIntervals : Bool) (job : WebhookJobData)
    (log : WebhookLog) (now : Nat) (code : Option Int) (msg : String)
    (h : log.attempts + 1 < 5) :
    (webhookFailUpdate testIntervals job log now code msg).1.status = .pending ∧
    (webhookFailUpdate testIntervals job log now code msg).1.attempts = log.attempts + 1 ∧
    (webhookFailUpdate testIntervals job log now code msg).1.next_retry_at =
      some (now + (getRetryIntervals testIntervals).getD (log.attempts + 1) 0) ∧
    (webhookFailUpdate testIntervals job log now code msg).2 =
      [Job.deliverWebhook (some log.id) job.merchantId job.event job.payload
        ((getRetryIntervals testIntervals).getD (log.attempts + 1) 0)] ∧
    getRetryIntervals false = [0, 60000, 300000, 1800000, 7200000] ∧
    getRetryIntervals true = [0, 5000, 10000, 15000, 20000] := by
  have h5 : ¬ (5 ≤ log.attempts + 1) := by omega
  have hj : jsIndexOr (getRetryIntervals testIntervals) (log.attempts + 1) =
      (getRetryIntervals testIntervals).getD (log.attempts + 1) 0 := by
    set a := log.attempts with ha
    have ha4 : a < 4 := by omega
    interval_cases a <;> cases testIntervals <;> rfl
  have heq : webhookFailUpdate testIntervals job log now code msg =
      ({ log with status := .pending, attempts := log.attempts + 1,
                  last_attempt_at := some now,
                  next_retry_at :=
                    some (now + (getRetryIntervals testIntervals).getD (log.attempts + 1) 0),
                  response_code := some (match code with | some c => c | none => 0),
                  response_body := some msg },
       [Job.deliverWebhook (some log.id) job.merchantId job.event job.payload
          ((getRetryIntervals testIntervals).getD (log.attempts + 1) 0)]) := by
    simp only [webhookFailUpdate]
    rw [if_neg h5, hj]
  rw [heq]
  exact ⟨rfl, rfl, rfl, rfl, rfl, rfl⟩

/-- Witness for C6: a first failure (attempt count 0 before the run) in
production mode schedules the second attempt 60000 ms out. -/
theorem webhook_retry_backoff_witness :
    logW.attempts + 1 < 5 ∧
    ((webhookFailUpdate false jobW logW 100 (some 500) "Request failed with status code 500").1.status = .pending ∧
     (webhookFailUpdate false jobW logW 100 (some 500) "Request failed with status code 500").1.attempts = logW.attempts + 1 ∧
     (webhookFailUpdate false jobW logW 100 (some 500) "Request failed with status code 500").1.next_retry_at =
       some (100 + (getRetryIntervals false).getD (logW.attempts + 1) 0) ∧
     (webhookFailUpdate false jobW logW 100 (some 500) "Request failed with status code 500").2 =
       [Job.deliverWebhook (some logW.id) jobW.merchantId jobW.event jobW.payload
         ((getRetryIntervals false).getD (logW.attempts + 1) 0)] ∧
     getRetryIntervals false = [0, 60000, 300000, 1800000, 7200000] ∧
     getRetryIntervals true = [0, 5000, 10000, 15000, 20000]) ∧
    (getRetryIntervals false).getD (logW.attempts + 1) 0 = 60000 :=
  ⟨by decide,
   webhook_retry_backoff false jobW logW 100 (some 500)
     "Request failed with status code 500" (by decide),
   rfl⟩

/-! ## C9 -/

set_option maxRecDepth 10000 in
/-- C9 counterexample: a failing delivery attempt stores the raw error
message as `response_body` with no truncation — here a 1001-character
message is stored whole, exceeding the 1000-byte bound the claim asserts
for every outcome. -/
theorem webhook_failure_body_exceeds_1000 :
    (webhookFailUpdate false jobW logW 0 none longMsg).1.response_body.map String.length =
      some 1001 ∧ ¬(1001 ≤ 1000) := by
  refine ⟨?_, by decide⟩
  rw [webhookFailUpdate_body]
  rfl

/-- C9 corrected: only the success path truncates — the serialized 2xx
response body is cut to at most 1000 characters by `substring(0, 1000)` —
while every failure path stores the error message verbatim, so the stored
`response_body` can exceed 1000 bytes after a failed attempt. -/
theorem webhook_response_body_truncation (log : WebhookLog) (now : Nat) :
    (∀ code data, ((webhookSuccessUpdate log now code data).response_body.getD "").length ≤ 1000) ∧
    (∀ t job code msg, (webhookFailUpdate t job log now code msg).1.response_body = some msg) := by
  constructor
  · intro code data
    show (strTruncate (Json.serialize data) 1000).length ≤ 1000
    show ((Json.serialize data).data.take 1000).length ≤ 1000
    rw [List.length_take]
    exact min_le_left _ _
  · intro t job code msg
    exact webhookFailUpdate_body t job log now code msg

/-! ## C8 -/

/-- C8 counterexample: `parseInt("-5") || 10` keeps `-5`, so a negative
pagination value is passed through to the query instead of falling back to
the default. -/
theorem negative_pagination_not_defaulted :
    listLimit (some "-5") = -5 ∧ listOffset (some "-7") = -7 ∧ ((-5 : Int) = 10 → False) := by
  exact ⟨rfl, rfl, by decide⟩

/-- The empty-key and missing-key guards agree, so the idempotency write is
skipped identically for both. -/
theorem storeIdemRecord_empty_key (db : DB) (mid : String) (resp : Json) (now : Nat) :
    storeIdemRecord db (some "") mid resp now = storeIdemRecord db none mid resp now := rfl

/-- The main create-payment flow is insensitive to an empty-string key
versus an absent one: the key is consulted only through its truthiness. -/
theorem createPaymentMain_empty_key (db : DB) (mid : String) (body : PaymentRequest)
    (now : Nat) (pid : String) :
    createPaymentMain db mid (some "") body now pid =
      createPaymentMain db mid none body now pid := by
  unfold createPaymentMain
  simp only [storeIdemRecord_empty_key]

/-- C8 corrected: a non-numeric (`NaN`) pagination value, an absent
parameter, and a parsed `0` all fall back to the defaults (`limit = 10`,
`offset = 0`); a parsed nonzero value — including a negative one — is kept
as-is; and an empty-string Idempotency-Key makes create-payment behave
exactly as if the header were absent. -/
theorem pagination_defaults_and_empty_idem_key :
    (∀ s, jsParseInt s = none → listLimit (some s) = 10 ∧ listOffset (some s) = 0) ∧
    (listLimit none = 10 ∧ listOffset none = 0) ∧
    (listLimit (some "0") = 10 ∧ listOffset (some "0") = 0) ∧
    (∀ s n, jsParseInt s = some n → n ≠ 0 → listLimit (some s) = n ∧ listOffset (some s) = n) ∧
    (∀ db mid body now pid,
       createPaymentHandler db mid (some "") body now pid =
         createPaymentHandler db mid none body now pid) := by
  refine ⟨?_, ⟨rfl, rfl⟩, ⟨rfl, rfl⟩, ?_, ?_⟩
  · intro s h
    constructor <;> simp [listLimit, listOffset, jsParseIntOr, h]
  · intro s n h hn
    constructor <;> simp [listLimit, listOffset, jsParseIntOr, h, hn]
  · intro db mid body now pid
    unfold createPaymentHandler
    simp [jsTruthyStr, createPaymentMain_empty_key]

/-- Witness for C8 at concrete inputs: the literal "abc" is NaN and falls
back, and an empty-string key yields the same handler output as no key. -/
theorem pagination_defaults_and_empty_idem_key_witness :
    jsParseInt "abc" = none ∧
    (listLimit (some "abc") = 10 ∧ listOffset (some "abc") = 0) ∧
    createPaymentHandler dbW "m1" (some "") reqU1 0 "pay_5" =
      createPaymentHandler dbW "m1" none reqU1 0 "pay_5" :=
  ⟨rfl,
   pagination_defaults_and_empty_idem_key.1 "abc" rfl,
   pagination_defaults_and_empty_idem_key.2.2.2.2 dbW "m1" reqU1 0 "pay_5"⟩

end Gateway

namespace Gateway

/-! ## C4 -/

/-- Every byte emitted by `wordBytes` is below 256. -/
theorem wordBytes_lt (w : Nat) : ∀ b ∈ wordBytes w, b < 256 := by
  intro b hb
  simp [wordBytes] at hb
  rcases hb with h | h | h | h <;> omega

/-- Every byte of a SHA-256 digest is below 256. -/
theorem sha256_bytes_lt (msg : List Nat) : ∀ b ∈ sha256 msg, b < 256 := by
  intro b hb
  simp only [sha256, List.mem_append] at hb
  rcases hb with ((((((h | h) | h) | h) | h) | h) | h) | h <;>
    exact wordBytes_lt _ b h

/-- Every byte of an HMAC-SHA256 digest is below 256. -/
theorem hmacSha256_bytes_lt (key msg : List Nat) : ∀ b ∈ hmacSha256 key msg, b < 256 := by
  intro b hb
  simp only [hmacSha256] at hb
  exact sha256_bytes_lt _ b hb

/-- A hex digit of a value below 16 is a lowercase hex character. -/
theorem hexDigit_mem (n : Nat) (h : n < 16) :
    isLowerHexChar (hexDigit n) = true := by
  interval_cases n <;> decide

/-- Every character of the hex encoding of a byte list is a lowercase hex
character. -/
theorem bytesToHex_chars (bs : List Nat) (hb : ∀ b ∈ bs, b < 256) :
    ∀ c ∈ (bytesToHex bs).data, isLowerHexChar c = true := by
  induction bs with
  | nil => intro c hc; simp [bytesToHex] at hc
  | cons b rest ih =>
      intro c hc
      have hb0 : b < 256 := hb b (by simp)
      have hcons : bytesToHex (b :: rest) = byteHex b ++ bytesToHex rest := rfl
      rw [hcons, String.data_append] at hc
      rcases List.mem_append.mp hc with h | h
      · have hdata : (byteHex b).data = [hexDigit (b / 16), hexDigit (b % 16)] := rfl
        rw [hdata] at h
        simp only [List.mem_cons, List.not_mem_nil, or_false] at h
        rcases h with h | h
        · exact h ▸ hexDigit_mem (b / 16) (by omega)
        · exact h ▸ hexDigit_mem (b % 16) (by omega)
      · exact ih (fun x hx => hb x (by simp [hx])) c h

set_option maxRecDepth 100000 in
/-- Validation of the hash embedding against the FIPS 180-4 test vector for
the message "abc". -/
theorem sha256_vector_abc :
    bytesToHex (sha256 (strBytes "abc")) =
      "ba7816bf8f01cfea414140de5dae2223b00361a396177a9cb410ff61f20015ad" := by rfl

set_option maxRecDepth 100000 in
/-- Validation of the keyed-hash embedding against RFC 4231 test case 1. -/
theorem hmacSha256_vector_rfc4231 :
    bytesToHex (hmacSha256 (List.replicate 20 11) (strBytes "Hi There")) =
      "b0344c61d8db38535ca8afceaf0bf12b881dc200c9833da726e9376c2e32cff7" := by rfl

/-- C4: for every delivered webhook, the `X-Webhook-Signature` header is the
signature computed over exactly the transmitted HTTP body — the string that
is signed and the string that is POSTed are the same serialization of the
payload — and it equals the lowercase hex HMAC-SHA256 keyed with the
merchant's `webhook_secret` over the body's UTF-8 bytes. -/
theorem webhook_signature_matches_body (merchant : Merchant) (payload : Json) :
    (buildWebhookRequest merchant payload).signatureHeader =
      generateSignature (buildWebhookRequest merchant payload).body merchant.webhook_secret ∧
    (buildWebhookRequest merchant payload).signatureHeader =
      bytesToHex (hmacSha256 (strBytes merchant.webhook_secret)
        (strBytes (buildWebhookRequest merchant payload).body)) ∧
    (∀ c ∈ ((buildWebhookRequest merchant payload).signatureHeader).data,
       isLowerHexChar c = true) := by
  refine ⟨rfl, rfl, ?_⟩
  have hform : (buildWebhookRequest merchant payload).signatureHeader =
      bytesToHex (hmacSha256 (strBytes merchant.webhook_secret)
        (strBytes (Json.serialize payload))) := rfl
  rw [hform]
  exact bytesToHex_chars _ (hmacSha256_bytes_lt _ _)

end Gateway

namespace Gateway

/-! ## C2 -/

/-- Consing a refund row changes the per-payment sum by its amount exactly
when it references the payment. -/
theorem refundSum_cons (db : DB) (r : Refund) (pid : String) :
    refundSum { db with refunds := r :: db.refunds } pid =
      (if r.payment_id == pid then r.amount else 0) + refundSum db pid := by
  unfold refundSum
  simp only [List.filter_cons]
  split
  · simp
  · simp

/-- Characterization: with a successful owned payment, a positive request
within the available amount is accepted and inserted. -/
theorem createRefundHandler_accepts (db : DB) (mid pid rid : String) (a : Int)
    (reason : Option String) (now : Nat) (p : Payment)
    (hp : findPayment db pid mid = some p) (hs : p.status = .success)
    (h1 : 0 < a) (h2 : a ≤ p.amount - refundSum db pid) :
    createRefundHandler db mid pid (some a) reason now rid =
      ⟨⟨201, .obj ([("id", .str rid), ("payment_id", .str pid), ("amount", .num a)] ++
          (match reason with | some r => [("reason", Json.str r)] | none => []) ++
          [("status", .str "pending"), ("created_at", .num now)])⟩,
       { db with refunds := ⟨rid, pid, mid, a, reason, .pending, now, none⟩ :: db.refunds },
       [Job.processRefund rid]⟩ := by
  unfold createRefundHandler
  rw [hp]
  dsimp only [jsTruthyNum, Option.getD]
  split_ifs with hA hB hC
  · simp [hs] at hA
  · simp at hB; omega
  · simp at hC; omega
  · rfl

/-- Characterization: a request exceeding the available amount is rejected
with `400 BAD_REQUEST_ERROR` and no state change. -/
theorem createRefundHandler_rejects_over (db : DB) (mid pid rid : String) (a : Int)
    (reason : Option String) (now : Nat) (p : Payment)
    (hp : findPayment db pid mid = some p) (hs : p.status = .success)
    (h1 : 0 < a) (h2 : p.amount - refundSum db pid < a) :
    createRefundHandler db mid pid (some a) reason now rid =
      ⟨errorResponse 400 "BAD_REQUEST_ERROR" "Refund amount exceeds available amount", db, []⟩ := by
  unfold createRefundHandler
  rw [hp]
  dsimp only [jsTruthyNum, Option.getD]
  split_ifs with hA hB
  · simp [hs] at hA
  · simp at hB; omega
  · rfl

/-- Characterization: a non-positive request is rejected before the
availability check. -/
theorem createRefundHandler_rejects_nonpos (db : DB) (mid pid rid : String) (a : Int)
    (reason : Option String) (now : Nat) (p : Payment)
    (hp : findPayment db pid mid = some p) (hs : p.status = .success)
    (h1 : a ≤ 0) :
    createRefundHandler db mid pid (some a) reason now rid =
      ⟨errorResponse 400 "BAD_REQUEST_ERROR" "Invalid refund amount", db, []⟩ := by
  unfold createRefundHandler
  rw [hp]
  dsimp only [jsTruthyNum, Option.getD]
  split_ifs with hA hB hC
  · simp [hs] at hA
  · rfl
  · simp at hB; omega
  · simp at hB; omega

/-- C2: with a successful owned payment, a refund of exactly the remaining
available amount (payment amount minus the sum of recorded refunds) is
accepted with `201` and brings the recorded sum to exactly the payment
amount; one unit more is rejected with `400 BAD_REQUEST_ERROR`, leaving the
refund set unchanged and enqueuing nothing; and any accepted refund keeps
the recorded sum at or below the payment amount. -/
theorem refund_available_amount_boundary
    (db : DB) (mid pid rid1 rid2 : String) (reason : Option String) (now : Nat)
    (p : Payment) (hp : findPayment db pid mid = some p) (hs : p.status = .success)
    (hpos : 1 ≤ p.amount - refundSum db pid) :
    ((createRefundHandler db mid pid (some (p.amount - refundSum db pid)) reason now rid1).resp.status = 201 ∧
     refundSum (createRefundHandler db mid pid (some (p.amount - refundSum db pid)) reason now rid1).db pid = p.amount) ∧
    ((createRefundHandler db mid pid (some (p.amount - refundSum db pid + 1)) reason now rid2).resp =
       errorResponse 400 "BAD_REQUEST_ERROR" "Refund amount exceeds available amount" ∧
     (createRefundHandler db mid pid (some (p.amount - refundSum db pid + 1)) reason now rid2).db = db ∧
     (createRefundHandler db mid pid (some (p.amount - refundSum db pid + 1)) reason now rid2).jobs = []) ∧
    (∀ a r' rid', (createRefundHandler db mid pid (some a) r' now rid').resp.status = 201 →
       refundSum (createRefundHandler db mid pid (some a) r' now rid').db pid ≤ p.amount) := by
  have hself : (pid == pid) = true := by simp
  refine ⟨?_, ?_, ?_⟩
  · rw [createRefundHandler_accepts db mid pid rid1 _ reason now p hp hs (by omega) (by omega)]
    constructor
    · rfl
    · show refundSum { db with refunds := _ :: db.refunds } pid = p.amount
      rw [refundSum_cons]
      simp only [hself, if_true]
      omega
  · rw [createRefundHandler_rejects_over db mid pid rid2 _ reason now p hp hs (by omega) (by omega)]
    exact ⟨rfl, rfl, rfl⟩
  · intro a r' rid' h201
    by_cases hposa : 0 < a
    · by_cases hover : p.amount - refundSum db pid < a
      · rw [createRefundHandler_rejects_over db mid pid rid' a r' now p hp hs hposa hover] at h201
        simp [errorResponse] at h201
      · rw [createRefundHandler_accepts db mid pid rid' a r' now p hp hs hposa (by omega)] at h201 ⊢
        show refundSum { db with refunds := _ :: db.refunds } pid ≤ p.amount
        rw [refundSum_cons]
        simp only [hself, if_true]
        omega
    · rw [createRefundHandler_rejects_nonpos db mid pid rid' a r' now p hp hs (by omega)] at h201
      simp [errorResponse] at h201

/-- Witness for C2 at the fixture store: payment amount 100, prior refunds
of 40, so the remaining available amount is 60 — accepted exactly, while 61
is rejected. -/
theorem refund_available_amount_boundary_witness :
    findPayment dbW "pay_1" "m1" = some paymentS ∧
    paymentS.status = .success ∧
    (1 : Int) ≤ paymentS.amount - refundSum dbW "pay_1" ∧
    paymentS.amount - refundSum dbW "pay_1" = 60 ∧
    ((createRefundHandler dbW "m1" "pay_1" (some (paymentS.amount - refundSum dbW "pay_1")) none 7 "rfnd_2").resp.status = 201 ∧
     refundSum (createRefundHandler dbW "m1" "pay_1" (some (paymentS.amount - refundSum dbW "pay_1")) none 7 "rfnd_2").db "pay_1" = paymentS.amount) ∧
    (createRefundHandler dbW "m1" "pay_1" (some (paymentS.amount - refundSum dbW "pay_1" + 1)) none 7 "rfnd_3").resp =
      errorResponse 400 "BAD_REQUEST_ERROR" "Refund amount exceeds available amount" :=
  ⟨rfl, rfl, by decide, by decide,
   (refund_available_amount_boundary dbW "m1" "pay_1" "rfnd_2" "rfnd_3" none 7 paymentS
      rfl rfl (by decide)).1,
   (refund_available_amount_boundary dbW "m1" "pay_1" "rfnd_2" "rfnd_3" none 7 paymentS
      rfl rfl (by decide)).2.1.1⟩

end Gateway

namespace Gateway

/-! ## C3 -/

/-- The strengthened invariant holds at a freshly created log. -/
theorem webhookInv_init (lid mid event : String) (payload : Json) (now : Nat) :
    webhookInv (webhookLogInit lid mid event payload now) := by
  refine ⟨by simp [webhookLogInit], by intro; simp [webhookLogInit], ?_⟩
  intro h
  simp [webhookLogInit] at h

/-- The strengthened invariant is preserved by every serial transition. -/
theorem webhookInv_step (t : Bool) (s s' : WebhookLog × Bool)
    (hs : webhookInv s) (hstep : WebhookStep t s s') : webhookInv s' := by
  obtain ⟨h1, h2, h3⟩ := hs
  cases hstep with
  | deliverOk log now code data =>
      have hle : log.attempts ≤ 4 := h2 rfl
      refine ⟨?_, ?_, ?_⟩
      · show (webhookSuccessUpdate log now code data).attempts ≤ 5
        simp [webhookSuccessUpdate]; omega
      · intro hfalse; simp at hfalse
      · intro hf
        simp [webhookSuccessUpdate] at hf
  | deliverErr log job now code msg =>
      have hle : log.attempts ≤ 4 := h2 rfl
      by_cases h5 : 5 ≤ log.attempts + 1
      · have heq : webhookFailUpdate t job log now code msg =
            ({ log with status := .failed, attempts := log.attempts + 1,
                        last_attempt_at := some now,
                        response_code := some (match code with | some c => c | none => 0),
                        response_body := some msg }, []) := by
          simp only [webhookFailUpdate]
          rw [if_pos h5]
        rw [heq]
        exact ⟨by simp; omega, by intro hfalse; simp at hfalse, fun _ => ⟨by simp; omega, by simp⟩⟩
      · have heq : webhookFailUpdate t job log now code msg =
            ({ log with status := .pending, attempts := log.attempts + 1,
                        last_attempt_at := some now,
                        next_retry_at :=
                          some (now + jsIndexOr (getRetryIntervals t) (log.attempts + 1)),
                        response_code := some (match code with | some c => c | none => 0),
                        response_body := some msg },
             [Job.deliverWebhook (some log.id) job.merchantId job.event job.payload
                (jsIndexOr (getRetryIntervals t) (log.attempts + 1))]) := by
          simp only [webhookFailUpdate]
          rw [if_neg h5]
        rw [heq]
        refine ⟨by simp; omega, ?_, ?_⟩
        · intro _; show log.attempts + 1 ≤ 4; omega
        · intro hf; simp at hf
  | deliverSkip log =>
      exact ⟨h1, by intro hfalse; simp at hfalse, fun hf => ⟨(h3 hf).1, rfl⟩⟩
  | manualRetry log b now =>
      refine ⟨by simp, by intro; simp, ?_⟩
      intro hf
      simp at hf

/-- C3: under the serial per-log delivery discipline, every state reachable
from a fresh log keeps `attempts ≤ 5`, and a failed log has exactly 5
attempts with no outstanding delivery job; moreover the failure update at
the fifth attempt sets `status = failed` and enqueues nothing. -/
theorem webhook_attempts_bounded (t : Bool) (lid mid event : String)
    (payload : Json) (now : Nat) (s : WebhookLog × Bool)
    (hreach : Relation.ReflTransGen (WebhookStep t)
      (webhookLogInit lid mid event payload now) s) :
    (s.1.attempts ≤ 5 ∧ (s.1.status = .failed → s.1.attempts = 5 ∧ s.2 = false)) ∧
    (∀ job l2 now2 code msg, l2.attempts + 1 = 5 →
       (webhookFailUpdate t job l2 now2 code msg).1.status = .failed ∧
       (webhookFailUpdate t job l2 now2 code msg).1.attempts = 5 ∧
       (webhookFailUpdate t job l2 now2 code msg).2 = []) := by
  constructor
  · have hinv : webhookInv s := by
      induction hreach with
      | refl => exact webhookInv_init lid mid event payload now
      | tail hr hstep ih => exact webhookInv_step t _ _ ih hstep
    exact ⟨hinv.1, hinv.2.2⟩
  · intro job l2 now2 code msg h5
    have heq : webhookFailUpdate t job l2 now2 code msg =
        ({ l2 with status := .failed, attempts := l2.attempts + 1,
                   last_attempt_at := some now2,
                   response_code := some (match code with | some c => c | none => 0),
                   response_body := some msg }, []) := by
      simp only [webhookFailUpdate]
      rw [if_pos (by omega)]
    rw [heq]
    exact ⟨rfl, by simp; omega, rfl⟩

/-- Witness for C3: the fresh log itself (reachable by the empty run)
satisfies the bound, and a concrete fifth failure is marked failed with
nothing enqueued. -/
theorem webhook_attempts_bounded_witness :
    ((webhookLogInit "w1" "m1" "payment.success" Json.null 0).1.attempts ≤ 5 ∧
     ((webhookLogInit "w1" "m1" "payment.success" Json.null 0).1.status = .failed →
        (webhookLogInit "w1" "m1" "payment.success" Json.null 0).1.attempts = 5 ∧
        (webhookLogInit "w1" "m1" "payment.success" Json.null 0).2 = false)) ∧
    (∀ job l2 now2 code msg, l2.attempts + 1 = 5 →
       (webhookFailUpdate false job l2 now2 code msg).1.status = .failed ∧
       (webhookFailUpdate false job l2 now2 code msg).1.attempts = 5 ∧
       (webhookFailUpdate false job l2 now2 code msg).2 = []) :=
  webhook_attempts_bounded false "w1" "m1" "payment.success" Json.null 0
    (webhookLogInit "w1" "m1" "payment.success" Json.null 0) Relation.ReflTransGen.refl

end Gateway

namespace Gateway

/-! ## C7 -/

/-- C7 counterexample: the order lookup inside create-payment surfaces a
foreign merchant's order (here `order_2`, owned by `m2`, requested by `m1`)
as `400 BAD_REQUEST_ERROR`, not as the `404 NOT_FOUND` the claim asserts
for every id-resolving operation. -/
theorem createPayment_foreign_order_is_400 :
    (createPaymentHandler dbW "m1" none reqForeign 0 "pay_9").resp =
      errorResponse 400 "BAD_REQUEST_ERROR" "Order not found" ∧
    (createPaymentHandler dbW "m1" none reqForeign 0 "pay_9").resp.status ≠ 404 := by
  exact ⟨rfl, by decide⟩

/-- C7 amended: every direct id lookup — get order, get payment, get
refund, capture, create refund, retry webhook — answers a request naming an
object that does not exist under the calling merchant (nonexistent id or an
object owned by another merchant, indistinguishably) with `404 NOT_FOUND`
and no state change; the one exception is the order lookup inside
create-payment, which answers the same scope miss with
`400 BAD_REQUEST_ERROR "Order not found"`. -/
theorem merchant_scope_miss_responses (db : DB) (mid : String) (now : Nat) :
    (∀ oid, findOrder db oid mid = none →
       getOrderHandler db mid oid = errorResponse 404 "NOT_FOUND" "Order not found") ∧
    (∀ pid, findPayment db pid mid = none →
       getPaymentHandler db mid pid = errorResponse 404 "NOT_FOUND" "Payment not found") ∧
    (∀ rid, findRefund db rid mid = none →
       getRefundHandler db mid rid = errorResponse 404 "NOT_FOUND" "Refund not found") ∧
    (∀ pid, findPayment db pid mid = none →
       capturePaymentHandler db mid pid now =
         ⟨errorResponse 404 "NOT_FOUND" "Payment not found", db, []⟩) ∧
    (∀ pid a r rid, findPayment db pid mid = none →
       createRefundHandler db mid pid a r now rid =
         ⟨errorResponse 404 "NOT_FOUND" "Payment not found", db, []⟩) ∧
    (∀ wid, findWebhookLog db wid mid = none →
       retryWebhookHandler db mid wid now =
         ⟨errorResponse 404 "NOT_FOUND" "Webhook log not found", db, []⟩) ∧
    (∀ body pid, jsTruthyStr body.order_id = true → jsTruthyStr body.method = true →
       findOrder db (body.order_id.getD "") mid = none →
       (createPaymentHandler db mid none body now pid) =
         ⟨errorResponse 400 "BAD_REQUEST_ERROR" "Order not found", db, []⟩) := by
  refine ⟨?_, ?_, ?_, ?_, ?_, ?_, ?_⟩
  · intro oid h; unfold getOrderHandler; rw [h]
  · intro pid h; unfold getPaymentHandler; rw [h]
  · intro rid h; unfold getRefundHandler; rw [h]
  · intro pid h; unfold capturePaymentHandler; rw [h]
  · intro pid a r rid h; unfold createRefundHandler; rw [h]
  · intro wid h; unfold retryWebhookHandler; rw [h]
  · intro body pid hoid hmethod h
    unfold createPaymentHandler
    rw [if_neg (by simp [jsTruthyStr])]
    unfold createPaymentMain
    rw [if_neg (by simp [hoid, hmethod]), h]

/-- Witness for C7: the foreign order `order_2` and an absent payment id
under `m1` in the fixture store. -/
theorem merchant_scope_miss_responses_witness :
    findOrder dbW "order_2" "m1" = none ∧
    getOrderHandler dbW "m1" "order_2" = errorResponse 404 "NOT_FOUND" "Order not found" ∧
    findPayment dbW "pay_absent" "m1" = none ∧
    getPaymentHandler dbW "m1" "pay_absent" = errorResponse 404 "NOT_FOUND" "Payment not found" ∧
    (createPaymentHandler dbW "m1" none reqForeign 0 "pay_9") =
      ⟨errorResponse 400 "BAD_REQUEST_ERROR" "Order not found", dbW, []⟩ :=
  ⟨rfl,
   (merchant_scope_miss_responses dbW "m1" 0).1 "order_2" rfl,
   rfl,
   (merchant_scope_miss_responses dbW "m1" 0).2.1 "pay_absent" rfl,
   (merchant_scope_miss_responses dbW "m1" 0).2.2.2.2.2.2 reqForeign "pay_9" rfl rfl rfl⟩

end Gateway

namespace Gateway

/-! ## C5 -/

/-- Characterization: a first pass through the main create-payment flow
with a truthy key that returns `201` conses the cached record — key,
merchant, the jsonb-normalized response body, and a 24 h expiry — onto the
idempotency table. -/
theorem createPaymentMain_201_shape (db0 : DB) (mid k : String) (body : PaymentRequest)
    (now : Nat) (pid : String)
    (hk : (k == "") = false)
    (hok : (createPaymentMain db0 mid (some k) body now pid).resp.status = 201) :
    (createPaymentMain db0 mid (some k) body now pid).resp =
      ⟨201, (createPaymentMain db0 mid (some k) body now pid).resp.body⟩ ∧
    (createPaymentMain db0 mid (some k) body now pid).db.idempotency_keys =
      ⟨k, mid, jsonbNormalize (createPaymentMain db0 mid (some k) body now pid).resp.body,
       now, now + 86400000⟩ :: db0.idempotency_keys := by
  constructor
  · cases hresp : (createPaymentMain db0 mid (some k) body now pid).resp with
    | mk s b =>
        rw [hresp] at hok
        dsimp at hok
        rw [hok]
  · unfold createPaymentMain at hok ⊢
    by_cases h1 : (!jsTruthyStr body.order_id || !jsTruthyStr body.method) = true
    · rw [if_pos h1] at hok; simp [errorResponse] at hok
    · rw [if_neg h1] at hok ⊢
      cases hfo : findOrder db0 (body.order_id.getD "") mid with
      | none => rw [hfo] at hok; simp [errorResponse] at hok
      | some order =>
          rw [hfo] at hok
          dsimp only at hok ⊢
          by_cases h2 : (!(body.method.getD "" == "upi" || body.method.getD "" == "card")) = true
          · rw [if_pos h2] at hok; simp [errorResponse] at hok
          · rw [if_neg h2] at hok ⊢
            by_cases h3 : (body.method.getD "" == "upi" && !jsTruthyStr body.vpa) = true
            · rw [if_pos h3] at hok; simp [errorResponse] at hok
            · rw [if_neg h3] at hok ⊢
              by_cases h4 : (body.method.getD "" == "card" &&
                  (!jsTruthyStr body.card_number || !jsTruthyStr body.card_expiry ||
                   !jsTruthyStr body.card_cvv)) = true
              · rw [if_pos h4] at hok; simp [errorResponse] at hok
              · rw [if_neg h4] at hok ⊢
                dsimp only
                unfold storeIdemRecord
                rw [if_pos (by simp [jsTruthyStr, hk])]
                rfl

/-- Characterization: a call that finds a fresh cached record at the head
of the idempotency table returns it verbatim as a `201`, with no store
change and nothing enqueued, regardless of the request body. -/
theorem createPaymentHandler_cached (db : DB) (mid k : String) (body : PaymentRequest)
    (now : Nat) (pid : String) (rec : IdemRecord) (rest : List IdemRecord)
    (hk : (k == "") = false)
    (hdb : db.idempotency_keys = rec :: rest)
    (hkey : rec.key = k) (hmid : rec.merchant_id = mid) (hexp : now < rec.expires_at) :
    createPaymentHandler db mid (some k) body now pid = ⟨⟨201, rec.response⟩, db, []⟩ := by
  unfold createPaymentHandler
  rw [if_pos (by simp [jsTruthyStr, hk])]
  have hfind : findIdemRecord db ((some k).getD "") mid now = some rec := by
    unfold findIdemRecord
    rw [hdb, List.find?_cons_of_pos]
    simp [hkey, hmid, hexp]
  rw [hfind]

/-- C5 counterexample: with the same key and even the identical request
body, the replayed 201 body is not byte-identical to the first response:
the JSONB column re-orders the cached object's keys (here
`id, order_id, amount, ...` comes back as `id, vpa, amount, ...`), so the
serialized bytes differ even though both calls succeed. -/
theorem idempotent_create_payment_not_byte_identical :
    (createPaymentHandler dbW "m1" (some "k1") reqU1 0 "pay_7").resp.status = 201 ∧
    (createPaymentHandler (createPaymentHandler dbW "m1" (some "k1") reqU1 0 "pay_7").db
        "m1" (some "k1") reqU1 1000 "pay_8").resp.status = 201 ∧
    Json.serialize (createPaymentHandler (createPaymentHandler dbW "m1" (some "k1") reqU1 0 "pay_7").db
        "m1" (some "k1") reqU1 1000 "pay_8").resp.body ≠
      Json.serialize (createPaymentHandler dbW "m1" (some "k1") reqU1 0 "pay_7").resp.body := by
  exact ⟨rfl, rfl, by decide⟩

/-- C5 corrected: with a fresh nonempty Idempotency-Key whose first call
succeeds with `201`, every later call under the same merchant and key
within the 24 h TTL — regardless of its request body — replays the cached
`201` with no store change and nothing enqueued; the replayed body is the
jsonb-normalized first body (the same key-value set with the keys in the
column's storage order), and all replayed bodies are byte-identical to one
another once serialized. -/
theorem idempotent_create_payment_replays_cached
    (db : DB) (mid k : String) (body1 : PaymentRequest)
    (now1 : Nat) (pid1 : String)
    (hk : (k == "") = false)
    (hmiss : findIdemRecord db k mid now1 = none)
    (hok : (createPaymentHandler db mid (some k) body1 now1 pid1).resp.status = 201) :
    (∀ body' pid' (now' : Nat), now' < now1 + 86400000 →
       createPaymentHandler (createPaymentHandler db mid (some k) body1 now1 pid1).db
           mid (some k) body' now' pid' =
         ⟨⟨201, jsonbNormalize (createPaymentHandler db mid (some k) body1 now1 pid1).resp.body⟩,
          (createPaymentHandler db mid (some k) body1 now1 pid1).db, []⟩) ∧
    (∀ body2 body3 pid2 pid3 (now2 now3 : Nat),
       now2 < now1 + 86400000 → now3 < now1 + 86400000 →
       Json.serialize (createPaymentHandler (createPaymentHandler db mid (some k) body1 now1 pid1).db
           mid (some k) body2 now2 pid2).resp.body =
         Json.serialize (createPaymentHandler (createPaymentHandler db mid (some k) body1 now1 pid1).db
           mid (some k) body3 now3 pid3).resp.body) := by
  have hfirst : createPaymentHandler db mid (some k) body1 now1 pid1 =
      createPaymentMain (deleteIdemRecord db k mid) mid (some k) body1 now1 pid1 := by
    unfold createPaymentHandler
    rw [if_pos (by simp [jsTruthyStr, hk])]
    have hmiss' : findIdemRecord db ((some k).getD "") mid now1 = none := hmiss
    rw [hmiss']
    rfl
  rw [hfirst] at hok ⊢
  obtain ⟨hresp, hkeys⟩ :=
    createPaymentMain_201_shape (deleteIdemRecord db k mid) mid k body1 now1 pid1 hk hok
  have hrep : ∀ body' pid' (now' : Nat), now' < now1 + 86400000 →
      createPaymentHandler
          (createPaymentMain (deleteIdemRecord db k mid) mid (some k) body1 now1 pid1).db
          mid (some k) body' now' pid' =
        ⟨⟨201, jsonbNormalize
            (createPaymentMain (deleteIdemRecord db k mid) mid (some k) body1 now1 pid1).resp.body⟩,
         (createPaymentMain (deleteIdemRecord db k mid) mid (some k) body1 now1 pid1).db, []⟩ := by
    intro body' pid' now' httl
    exact createPaymentHandler_cached
      (createPaymentMain (deleteIdemRecord db k mid) mid (some k) body1 now1 pid1).db
      mid k body' now' pid'
      ⟨k, mid,
       jsonbNormalize
         (createPaymentMain (deleteIdemRecord db k mid) mid (some k) body1 now1 pid1).resp.body,
       now1, now1 + 86400000⟩
      (deleteIdemRecord db k mid).idempotency_keys
      hk hkeys rfl rfl httl
  refine ⟨hrep, ?_⟩
  intro body2 body3 pid2 pid3 now2 now3 h2 h3
  rw [hrep body2 pid2 now2 h2, hrep body3 pid3 now3 h3]

/-- Witness for C5 at the fixture store: the key `k1`, a first UPI body,
a second call carrying a different vpa and a third carrying the original
body — both replays return the cached normalized body, byte-identical to
each other. -/
theorem idempotent_create_payment_replays_cached_witness :
    findIdemRecord dbW "k1" "m1" 0 = none ∧
    (createPaymentHandler dbW "m1" (some "k1") reqU1 0 "pay_7").resp.status = 201 ∧
    (createPaymentHandler (createPaymentHandler dbW "m1" (some "k1") reqU1 0 "pay_7").db
        "m1" (some "k1") reqU2 1000 "pay_8" =
      ⟨⟨201, jsonbNormalize (createPaymentHandler dbW "m1" (some "k1") reqU1 0 "pay_7").resp.body⟩,
       (createPaymentHandler dbW "m1" (some "k1") reqU1 0 "pay_7").db, []⟩) ∧
    Json.serialize (createPaymentHandler (createPaymentHandler dbW "m1" (some "k1") reqU1 0 "pay_7").db
        "m1" (some "k1") reqU2 1000 "pay_8").resp.body =
      Json.serialize (createPaymentHandler (createPaymentHandler dbW "m1" (some "k1") reqU1 0 "pay_7").db
        "m1" (some "k1") reqU1 2000 "pay_9").resp.body :=
  ⟨rfl, rfl,
   (idempotent_create_payment_replays_cached dbW "m1" "k1" reqU1 0 "pay_7"
      rfl rfl rfl).1 reqU2 "pay_8" 1000 (by decide),
   (idempotent_create_payment_replays_cached dbW "m1" "k1" reqU1 0 "pay_7"
      rfl rfl rfl).2 reqU2 reqU1 "pay_8" "pay_9" 1000 2000 (by decide) (by decide)⟩

end Gateway
